import Mathlib

/-!
Shallow embedding of the Health Assessment API backend (`backend/main.py`).

Numbers are modelled as rationals.  Python's built-in `round` rounds half to
even (banker's rounding); `roundHalfEven` and `roundTo` model `round(x)` and
`round(x, n)` on that convention.  Strings interpolating numeric values
(the `range` field, workout durations, weekly-goal texts) use Lean's
`toString` as an abstraction of Python's numeric formatting; no claim
depends on the text of those interpolations.
-/

set_option autoImplicit false

-- Batteries marks the `Rat` field operations `@[irreducible]`, which keeps
-- `decide` from evaluating concrete rational arithmetic; restore the default
-- reducibility so concrete instances of the claims can be checked by `decide`.
set_option allowUnsafeReducibility true in
attribute [semireducible] Rat.ofScientific Rat.mul Rat.add Rat.sub Rat.inv

namespace HealthApp

/-- Python's `str.lower` (ASCII case mapping, which covers every string the
program compares after lowercasing). -/
def str_lower (s : String) : String := ⟨s.data.map Char.toLower⟩

/-- `round(x)` in Python: nearest integer, ties to even. -/
def roundHalfEven (x : ℚ) : ℤ :=
  if x - ⌊x⌋ < 1/2 then ⌊x⌋
  else if 1/2 < x - ⌊x⌋ then ⌊x⌋ + 1
  else if ⌊x⌋ % 2 = 0 then ⌊x⌋ else ⌊x⌋ + 1

/-- `round(x, n)` in Python: nearest multiple of `10^(-n)`, ties to even. -/
def roundTo (n : ℕ) (x : ℚ) : ℚ :=
  (roundHalfEven (x * 10 ^ n) : ℚ) / 10 ^ n

/-- The spec's words "standard rounding" read as round half up (away from
zero on nonnegative input), for comparison against the code's
`roundHalfEven`. -/
def roundHalfUp (x : ℚ) : ℤ :=
  if x - ⌊x⌋ < 1/2 then ⌊x⌋ else ⌊x⌋ + 1

-- `UserHealthInfo` (pydantic model): the validated input record.
structure UserHealthInfo where
  name : String
  age : ℤ
  gender : String
  height : ℚ
  weight : ℚ
  activity_level : String
  goal : String
  dietary_preference : Option String
  medical_conditions : Option (List String)
  deriving Repr, DecidableEq

/-- The field constraints enforced by the pydantic validators upstream. -/
def ValidProfile (u : UserHealthInfo) : Prop :=
  u.name ≠ "" ∧ 1 ≤ u.age ∧ u.age ≤ 120 ∧
  (u.gender = "male" ∨ u.gender = "female" ∨ u.gender = "other") ∧
  0 < u.height ∧ 0 < u.weight ∧
  u.activity_level ∈ ["sedentary", "lightly_active", "moderately_active",
    "very_active", "extra_active"] ∧
  u.goal ∈ ["lose_weight", "maintain", "gain_muscle", "improve_fitness"] ∧
  (u.dietary_preference = none ∨
    u.dietary_preference ∈ [some "none", some "vegetarian", some "vegan",
      some "keto", some "paleo"])

instance (u : UserHealthInfo) : Decidable (ValidProfile u) := by
  unfold ValidProfile; infer_instance

structure IdealWeightRange where
  min_kg : ℚ
  max_kg : ℚ
  range : String
  deriving Repr, DecidableEq

structure Macros where
  protein : ℚ
  carbs : ℚ
  fats : ℚ
  deriving Repr, DecidableEq

-- Health Calculations --------------------------------------------------------

/-- `calculate_bmi`: `weight / (height/100)^2`, rounded to 2 decimals.
`none` models Python's `ZeroDivisionError` when the denominator is zero. -/
def calculate_bmi (weight height : ℚ) : Option ℚ :=
  let height_m := height / 100
  if height_m ^ 2 = 0 then none
  else some (roundTo 2 (weight / height_m ^ 2))

/-- `get_bmi_category`. -/
def get_bmi_category (bmi : ℚ) : String :=
  if bmi < 18.5 then "Underweight"
  else if 18.5 ≤ bmi ∧ bmi < 25 then "Normal weight"
  else if 25 ≤ bmi ∧ bmi < 30 then "Overweight"
  else "Obese"

/-- `calculate_bmr` (Mifflin-St Jeor). -/
def calculate_bmr (weight height : ℚ) (age : ℤ) (gender : String) : ℚ :=
  if str_lower gender = "male" then
    roundTo 2 ((10 * weight) + (6.25 * height) - (5 * age) + 5)
  else
    roundTo 2 ((10 * weight) + (6.25 * height) - (5 * age) - 161)

/-- The `activity_multipliers` dict. -/
def activity_multipliers : List (String × ℚ) :=
  [("sedentary", 1.2), ("lightly_active", 1.375), ("moderately_active", 1.55),
   ("very_active", 1.725), ("extra_active", 1.9)]

/-- `calculate_daily_calories`: `dict.get(activity_level, 1.2)` then the goal
adjustment. -/
def calculate_daily_calories (bmr : ℚ) (activity_level goal : String) : ℚ :=
  let tdee := bmr * ((activity_multipliers.lookup activity_level).getD 1.2)
  if goal = "lose_weight" then roundTo 2 (tdee - 500)
  else if goal = "gain_muscle" then roundTo 2 (tdee + 300)
  else roundTo 2 tdee

/-- `calculate_macros`: the goal ladder picks the percentage triple, then
`grams = calorie share / 4 (protein, carbs) or / 9 (fat)`, rounded to 2
decimals. -/
def calculate_macros (daily_calories : ℚ) (goal : String) : Macros :=
  if goal = "lose_weight" then
    { protein := roundTo 2 (daily_calories * 0.35 / 4)
      carbs := roundTo 2 (daily_calories * 0.35 / 4)
      fats := roundTo 2 (daily_calories * 0.30 / 9) }
  else if goal = "gain_muscle" then
    { protein := roundTo 2 (daily_calories * 0.30 / 4)
      carbs := roundTo 2 (daily_calories * 0.45 / 4)
      fats := roundTo 2 (daily_calories * 0.25 / 9) }
  else
    { protein := roundTo 2 (daily_calories * 0.25 / 4)
      carbs := roundTo 2 (daily_calories * 0.50 / 4)
      fats := roundTo 2 (daily_calories * 0.25 / 9) }

/-- `calculate_ideal_weight` (the `gender` argument is unused in the source). -/
def calculate_ideal_weight (height : ℚ) (gender : String) : IdealWeightRange :=
  let height_m := height / 100
  let min_weight := roundTo 1 (18.5 * height_m ^ 2)
  let max_weight := roundTo 1 (24.9 * height_m ^ 2)
  { min_kg := min_weight
    max_kg := max_weight
    range := toString min_weight ++ "-" ++ toString max_weight ++ " kg" }

/-- Python truthiness of the optional `medical_conditions` list. -/
def mcPresent : Option (List String) → Bool
  | none => false
  | some l => !l.isEmpty

/-- The `risks` list accumulated inside `assess_health_risks`. -/
def risk_items (bmi : ℚ) (age : ℤ)
    (medical_conditions : Option (List String)) : List String :=
  (if bmi < 18.5 then
      ["Increased risk of nutritional deficiencies and weakened immune system",
       "Potential bone density issues"]
     else if 25 ≤ bmi ∧ bmi < 30 then
      ["Moderate risk of cardiovascular disease",
       "Increased risk of type 2 diabetes"]
     else if 30 ≤ bmi then
      ["High risk of cardiovascular disease",
       "Significantly increased risk of type 2 diabetes",
       "Risk of sleep apnea and joint problems",
       "Increased risk of certain cancers"]
     else [])
  ++ (if 40 < age ∧ 25 ≤ bmi then
    ["Age-related metabolic slowdown combined with excess weight"] else [])
  ++ (if mcPresent medical_conditions then
    ["Existing conditions require medical supervision: " ++
      String.intercalate ", " (medical_conditions.getD [])] else [])

/-- `assess_health_risks`: the accumulated risks, or the fixed fallback when
no rule fired. -/
def assess_health_risks (bmi : ℚ) (age : ℤ)
    (medical_conditions : Option (List String)) : List String :=
  if risk_items bmi age medical_conditions = [] then
    ["No significant health risks identified"]
  else risk_items bmi age medical_conditions

/-- `generate_recommendations`: blocks appended in the source's order, then
`recommendations[:12]`.  The `bmi_category` parameter is unused, as in the
source. -/
def generate_recommendations (user : UserHealthInfo) (bmi : ℚ)
    (bmi_category : String) : List String :=
  let recommendations : List String :=
    (if bmi < 18.5 then
      ["Focus on nutrient-dense, calorie-rich foods",
       "Incorporate strength training to build muscle mass",
       "Eat 5-6 smaller meals throughout the day",
       "Consider protein shakes as supplements"]
     else if 25 ≤ bmi then
      ["Create a sustainable calorie deficit through balanced eating",
       "Increase physical activity gradually",
       "Focus on whole foods and reduce processed foods",
       "Practice portion control and mindful eating"]
     else [])
    ++ (if user.goal = "lose_weight" then
      ["Aim for 0.5-1 kg weight loss per week for sustainable results",
       "Combine cardio exercises with strength training",
       "Stay hydrated - drink water before meals",
       "Get 7-9 hours of quality sleep per night"]
     else if user.goal = "gain_muscle" then
      ["Prioritize progressive overload in strength training",
       "Ensure adequate protein intake (1.6-2.2g per kg body weight)",
       "Allow proper recovery time between workouts",
       "Consider creatine supplementation (consult a professional)"]
     else if user.goal = "improve_fitness" then
      ["Include a mix of cardio, strength, and flexibility training",
       "Set specific, measurable fitness goals",
       "Track your progress weekly",
       "Gradually increase workout intensity"]
     else [])
    ++ (if user.activity_level = "sedentary" then
      ["Start with 10-15 minute walks daily and gradually increase",
       "Take regular breaks from sitting every hour"]
     else [])
    ++ (if 50 < user.age then
      ["Include balance and flexibility exercises to prevent falls",
       "Focus on bone-strengthening activities",
       "Consider vitamin D and calcium supplementation (consult doctor)"]
     else [])
    ++ ["Regular health check-ups and blood work annually",
        "Manage stress through meditation or yoga",
        "Limit alcohol consumption and avoid smoking",
        "Build a support system for accountability"]
  recommendations.take 12

structure WorkoutDay where
  day : String
  type : String
  activity : String
  duration : String
  intensity : String
  deriving Repr, DecidableEq

/-- `generate_workout_plan` (the `bmi_category` parameter is unused, as in
the source).  Interpolated durations use `toString` for Python's f-string. -/
def generate_workout_plan (user : UserHealthInfo) (bmi_category : String) :
    List WorkoutDay :=
  let base_cardio_duration : ℕ :=
    if user.activity_level ∈ ["sedentary", "lightly_active"] then 30 else 45
  let base_str := toString base_cardio_duration ++ " min"
  if user.goal = "lose_weight" then
    [⟨"Monday", "Cardio", "Brisk walking or jogging", base_str, "Moderate"⟩,
     ⟨"Tuesday", "Strength", "Upper body strength training", "30 min", "Moderate"⟩,
     ⟨"Wednesday", "Cardio", "Cycling or swimming", base_str, "Moderate-High"⟩,
     ⟨"Thursday", "Strength", "Lower body strength training", "30 min", "Moderate"⟩,
     ⟨"Friday", "Cardio", "HIIT workout", "20-25 min", "High"⟩,
     ⟨"Saturday", "Active Recovery", "Yoga or light stretching", "30 min", "Low"⟩,
     ⟨"Sunday", "Rest", "Rest or gentle walk", "Optional", "Low"⟩]
  else if user.goal = "gain_muscle" then
    [⟨"Monday", "Strength", "Chest and triceps", "45-60 min", "High"⟩,
     ⟨"Tuesday", "Strength", "Back and biceps", "45-60 min", "High"⟩,
     ⟨"Wednesday", "Cardio", "Light cardio", "20 min", "Low-Moderate"⟩,
     ⟨"Thursday", "Strength", "Legs and core", "45-60 min", "High"⟩,
     ⟨"Friday", "Strength", "Shoulders and abs", "45-60 min", "High"⟩,
     ⟨"Saturday", "Active Recovery", "Stretching or yoga", "30 min", "Low"⟩,
     ⟨"Sunday", "Rest", "Complete rest", "N/A", "N/A"⟩]
  else
    [⟨"Monday", "Cardio", "Running or cycling", "30 min", "Moderate"⟩,
     ⟨"Tuesday", "Strength", "Full body workout", "40 min", "Moderate"⟩,
     ⟨"Wednesday", "Flexibility", "Yoga or Pilates", "45 min", "Low-Moderate"⟩,
     ⟨"Thursday", "Cardio", "Swimming or elliptical", "30 min", "Moderate"⟩,
     ⟨"Friday", "Strength", "Circuit training", "40 min", "Moderate-High"⟩,
     ⟨"Saturday", "Recreation", "Sports or hiking", "60 min", "Variable"⟩,
     ⟨"Sunday", "Rest", "Light walk or rest", "Optional", "Low"⟩]

structure MealEntry where
  meal : String
  calories : ℤ
  suggestions : List String
  deriving Repr, DecidableEq

/-- `generate_meal_suggestions` (the `macros` parameter is unused for the
calorie split, as in the source). -/
def generate_meal_suggestions (daily_calories : ℚ) (macros : Macros)
    (dietary_preference : Option String) : List MealEntry :=
  let breakfast_cals := roundHalfEven (daily_calories * 0.25)
  let lunch_cals := roundHalfEven (daily_calories * 0.35)
  let dinner_cals := roundHalfEven (daily_calories * 0.30)
  let snack_cals := roundHalfEven (daily_calories * 0.10)
  if dietary_preference = some "vegetarian" then
    [⟨"Breakfast", breakfast_cals,
      ["Oatmeal with berries, nuts, and honey",
       "Greek yogurt parfait with granola and fruit",
       "Whole grain toast with avocado and eggs"]⟩,
     ⟨"Lunch", lunch_cals,
      ["Quinoa bowl with roasted vegetables and chickpeas",
       "Lentil soup with whole grain bread and salad",
       "Vegetable stir-fry with tofu and brown rice"]⟩,
     ⟨"Dinner", dinner_cals,
      ["Grilled portobello mushroom with sweet potato and greens",
       "Vegetable curry with paneer and quinoa",
       "Pasta primavera with olive oil and parmesan"]⟩,
     ⟨"Snacks", snack_cals,
      ["Hummus with vegetable sticks",
       "Mixed nuts and dried fruit",
       "Apple slices with almond butter"]⟩]
  else if dietary_preference = some "vegan" then
    [⟨"Breakfast", breakfast_cals,
      ["Smoothie bowl with plant-based protein, fruits, and seeds",
       "Overnight oats with plant milk, chia seeds, and berries",
       "Whole grain toast with peanut butter and banana"]⟩,
     ⟨"Lunch", lunch_cals,
      ["Buddha bowl with quinoa, chickpeas, and tahini dressing",
       "Black bean and sweet potato burrito bowl",
       "Lentil and vegetable soup with whole grain crackers"]⟩,
     ⟨"Dinner", dinner_cals,
      ["Tofu stir-fry with vegetables and brown rice",
       "Vegan chili with cornbread",
       "Pasta with marinara sauce and nutritional yeast"]⟩,
     ⟨"Snacks", snack_cals,
      ["Roasted chickpeas",
       "Energy balls with dates and nuts",
       "Vegetable chips with guacamole"]⟩]
  else
    [⟨"Breakfast", breakfast_cals,
      ["Scrambled eggs with spinach and whole grain toast",
       "Protein smoothie with banana, berries, and oats",
       "Greek yogurt with granola, nuts, and honey"]⟩,
     ⟨"Lunch", lunch_cals,
      ["Grilled chicken salad with mixed greens and vinaigrette",
       "Turkey and avocado wrap with vegetables",
       "Salmon with quinoa and roasted vegetables"]⟩,
     ⟨"Dinner", dinner_cals,
      ["Lean beef or chicken with sweet potato and broccoli",
       "Baked fish with brown rice and asparagus",
       "Turkey meatballs with whole wheat pasta and vegetables"]⟩,
     ⟨"Snacks", snack_cals,
      ["Protein bar or shake",
       "Cottage cheese with fruit",
       "Hard-boiled eggs with cherry tomatoes"]⟩]

/-- `generate_lifestyle_tips` (fixed list; the `user` argument is unused, as
in the source). -/
def generate_lifestyle_tips (user : UserHealthInfo) : List String :=
  ["Prioritize 7-9 hours of quality sleep each night",
   "Stay hydrated: drink at least 8 glasses of water daily",
   "Practice stress management techniques (meditation, deep breathing)",
   "Limit screen time, especially before bed",
   "Meal prep on weekends to stay on track during busy weekdays",
   "Find an accountability partner or join a fitness community",
   "Take progress photos and measurements monthly",
   "Celebrate small victories along your journey",
   "Be patient and consistent - sustainable change takes time",
   "Listen to your body and rest when needed"]

/-- `generate_weekly_goals` as an ordered key/value list (Python dict with
fixed insertion order); the `nutrition` value interpolates `daily_calories`
via `toString` for Python's f-string. -/
def generate_weekly_goals (user : UserHealthInfo) (daily_calories : ℚ) :
    List (String × String) :=
  if user.goal = "lose_weight" then
    [("weight", "Aim for 0.5-1 kg weight loss"),
     ("exercise", "Complete 4-5 workout sessions"),
     ("nutrition", "Stay within " ++ toString daily_calories ++ " calories daily"),
     ("hydration", "Drink 2-3 liters of water daily"),
     ("sleep", "Get 7-9 hours of sleep each night"),
     ("tracking", "Log meals and workouts daily")]
  else if user.goal = "gain_muscle" then
    [("weight", "Aim for 0.25-0.5 kg muscle gain"),
     ("exercise", "Complete all scheduled strength training sessions"),
     ("nutrition", "Consume " ++ toString daily_calories ++
        " calories with focus on protein"),
     ("hydration", "Drink 3-4 liters of water daily"),
     ("sleep", "Get 8-9 hours of sleep for recovery"),
     ("tracking", "Track workout progress and weights lifted")]
  else
    [("fitness", "Improve endurance or strength by 5%"),
     ("exercise", "Complete 4-5 diverse workout sessions"),
     ("nutrition", "Maintain balanced diet around " ++
        toString daily_calories ++ " calories"),
     ("hydration", "Drink 2-3 liters of water daily"),
     ("sleep", "Maintain consistent sleep schedule"),
     ("tracking", "Monitor energy levels and performance")]

structure HealthAssessment where
  bmi : ℚ
  bmi_category : String
  bmr : ℚ
  daily_calories : ℚ
  protein_grams : ℚ
  carbs_grams : ℚ
  fats_grams : ℚ
  water_liters : ℚ
  ideal_weight_range : IdealWeightRange
  health_risks : List String
  recommendations : List String
  deriving Repr, DecidableEq

structure PersonalizedPlan where
  user_info : UserHealthInfo
  assessment : HealthAssessment
  workout_plan : List WorkoutDay
  meal_suggestions : List MealEntry
  lifestyle_tips : List String
  weekly_goals : List (String × String)
  deriving Repr, DecidableEq

/-- The `/assess` endpoint body.  `none` models the `except` branch (HTTP
500), reachable only through `calculate_bmi`'s division. -/
def assess_health (user_info : UserHealthInfo) : Option PersonalizedPlan :=
  match calculate_bmi user_info.weight user_info.height with
  | none => none
  | some bmi =>
    let bmi_category := get_bmi_category bmi
    let bmr := calculate_bmr user_info.weight user_info.height user_info.age
      user_info.gender
    let daily_calories := calculate_daily_calories bmr user_info.activity_level
      user_info.goal
    let macros := calculate_macros daily_calories user_info.goal
    let ideal_weight := calculate_ideal_weight user_info.height user_info.gender
    let water_liters := roundTo 1 (user_info.weight * 0.033)
    some
      { user_info := user_info
        assessment :=
          { bmi := bmi
            bmi_category := bmi_category
            bmr := bmr
            daily_calories := daily_calories
            protein_grams := macros.protein
            carbs_grams := macros.carbs
            fats_grams := macros.fats
            water_liters := water_liters
            ideal_weight_range := ideal_weight
            health_risks := assess_health_risks bmi user_info.age
              user_info.medical_conditions
            recommendations := generate_recommendations user_info bmi
              bmi_category }
        workout_plan := generate_workout_plan user_info bmi_category
        meal_suggestions := generate_meal_suggestions daily_calories macros
          user_info.dietary_preference
        lifestyle_tips := generate_lifestyle_tips user_info
        weekly_goals := generate_weekly_goals user_info daily_calories }

/-- The spec's end-to-end scenario profile: age 30, male, 175 cm, 70 kg,
sedentary, lose_weight, dietary preference none, no medical conditions. -/
def profile0 : UserHealthInfo :=
  { name := "John"
    age := 30
    gender := "male"
    height := 175
    weight := 70
    activity_level := "sedentary"
    goal := "lose_weight"
    dietary_preference := some "none"
    medical_conditions := none }

-- Rounding error bounds ------------------------------------------------------

theorem abs_roundHalfEven_sub_le (x : ℚ) : |(roundHalfEven x : ℚ) - x| ≤ 1/2 := by
  have h1 : (⌊x⌋ : ℚ) ≤ x := Int.floor_le x
  have h2 : x < ⌊x⌋ + 1 := Int.lt_floor_add_one x
  unfold roundHalfEven
  split_ifs with ha hb hc <;> rw [abs_le] <;> push_cast <;> constructor <;> linarith

theorem abs_roundTo_sub_le (n : ℕ) (x : ℚ) : |roundTo n x - x| ≤ 1 / (2 * 10 ^ n) := by
  have h := abs_roundHalfEven_sub_le (x * 10 ^ n)
  have hpos : (0:ℚ) < 10 ^ n := by positivity
  have key : roundTo n x - x
      = ((roundHalfEven (x * 10 ^ n) : ℚ) - x * 10 ^ n) / 10 ^ n := by
    rw [roundTo]; field_simp; ring
  have hval : (1:ℚ) / (2 * 10 ^ n) * 10 ^ n = 1/2 := by field_simp; ring
  rw [key, abs_div, abs_of_pos hpos, div_le_iff₀ hpos, hval]
  exact h

theorem abs_roundTo2_sub_le (x : ℚ) : |roundTo 2 x - x| ≤ 1/200 := by
  have h := abs_roundTo_sub_le 2 x
  norm_num at h
  exact h

theorem abs_roundTo1_sub_le (x : ℚ) : |roundTo 1 x - x| ≤ 1/20 := by
  have h := abs_roundTo_sub_le 1 x
  norm_num at h
  exact h

-- Claim theorems -------------------------------------------------------------

/-- C6: `get_bmi_category` is a total, non-overlapping partition of the
rational line at the thresholds 18.5, 25 and 30: below 18.5 it returns
"Underweight", on [18.5, 25) "Normal weight", on [25, 30) "Overweight",
and at or above 30 "Obese". -/
theorem c6_bmi_category_partition (bmi : ℚ) :
    (get_bmi_category bmi = "Underweight" ↔ bmi < 18.5) ∧
    (get_bmi_category bmi = "Normal weight" ↔ 18.5 ≤ bmi ∧ bmi < 25) ∧
    (get_bmi_category bmi = "Overweight" ↔ 25 ≤ bmi ∧ bmi < 30) ∧
    (get_bmi_category bmi = "Obese" ↔ 30 ≤ bmi) := by
  unfold get_bmi_category
  split_ifs with h1 h2 h3
  · exact ⟨iff_of_true rfl h1,
      iff_of_false (by decide) (fun h => by linarith [h.1]),
      iff_of_false (by decide) (fun h => by linarith [h.1]),
      iff_of_false (by decide) (fun h => by linarith)⟩
  · exact ⟨iff_of_false (by decide) (fun h => by linarith [h2.1]),
      iff_of_true rfl h2,
      iff_of_false (by decide) (fun h => by linarith [h.1, h2.2]),
      iff_of_false (by decide) (fun h => by linarith [h2.2])⟩
  · exact ⟨iff_of_false (by decide) (fun h => by linarith [h3.1]),
      iff_of_false (by decide) (fun h => absurd h h2),
      iff_of_true rfl h3,
      iff_of_false (by decide) (fun h => by linarith [h3.2])⟩
  · push_neg at h1 h2 h3
    have h30 : 30 ≤ bmi := h3 (h2 h1)
    exact ⟨iff_of_false (by decide) (fun h => by linarith),
      iff_of_false (by decide) (fun h => by linarith [h.2]),
      iff_of_false (by decide) (fun h => by linarith [h.2]),
      iff_of_true rfl h30⟩

/-- C3: `generate_recommendations` appends its condition-gated blocks in a
fixed order and truncates the concatenation to its first 12 entries, so the
returned list always has length at most 12, for every profile, BMI and
category. -/
theorem c3_recommendations_length_le_12 (user : UserHealthInfo) (bmi : ℚ)
    (bmi_category : String) :
    (generate_recommendations user bmi bmi_category).length ≤ 12 := by
  unfold generate_recommendations
  exact List.length_take_le _ _

/-- C2 (amended): for every height of at least 12.5 cm, the ideal weight
range computed by `calculate_ideal_weight` satisfies `min_kg < max_kg`.
(The claim's "for every height strictly greater than 0" fails: below
12.5 cm the two one-decimal roundings can coincide, see the
counterexample at height 1.) -/
theorem c2_ideal_weight_min_lt_max (height : ℚ) (gender : String)
    (h : 12.5 ≤ height) :
    (calculate_ideal_weight height gender).min_kg <
      (calculate_ideal_weight height gender).max_kg := by
  rcases eq_or_lt_of_le h with heq | hlt
  · rw [← heq]
    show roundTo 1 (18.5 * ((12.5:ℚ) / 100) ^ 2) < roundTo 1 (24.9 * ((12.5:ℚ) / 100) ^ 2)
    decide
  · unfold calculate_ideal_weight
    dsimp only
    have hm : 1/8 < height / 100 := by linarith
    have hm2 : 1/64 < (height / 100) ^ 2 := by nlinarith
    have ha := abs_roundTo1_sub_le (18.5 * (height / 100) ^ 2)
    have hb := abs_roundTo1_sub_le (24.9 * (height / 100) ^ 2)
    rw [abs_le] at ha hb
    nlinarith [ha.1, ha.2, hb.1, hb.2]

/-- Witness for C2 at the concrete height 175 cm. -/
theorem c2_witness : (12.5 : ℚ) ≤ 175 ∧
    (calculate_ideal_weight 175 "male").min_kg <
      (calculate_ideal_weight 175 "male").max_kg :=
  ⟨by decide, c2_ideal_weight_min_lt_max 175 "male" (by decide)⟩

/-- C2 counterexample: at height 1 cm (allowed by the height > 0
constraint) both bounds round to 0.0, so `min_kg < max_kg` fails. -/
theorem c2_counterexample : (0:ℚ) < 1 ∧
    ¬((calculate_ideal_weight 1 "male").min_kg <
      (calculate_ideal_weight 1 "male").max_kg) := by decide

/-- C5 counterexample: `calculate_bmr(70, 175, 30, "male")` is 1648.75
(10*70 + 6.25*175 - 5*30 + 5 = 1648.75), not the 1673.75 the claim
states. -/
theorem c5_counterexample :
    calculate_bmr 70 175 30 "male" = 1648.75 ∧ (1648.75 : ℚ) ≠ 1673.75 := by
  decide

/-- C5 (amended): `calculate_bmr` computes the Mifflin-St Jeor value
`10*w + 6.25*h - 5*age + 5` for gender "male" and
`10*w + 6.25*h - 5*age - 161` otherwise ("female" and "other" treated
identically), rounded to 2 decimals; in particular
`calculate_bmr(70, 175, 30, "male") = 1648.75` and
`calculate_bmr(70, 175, 30, "female") = 1482.75`. -/
theorem c5_bmr_formula :
    (∀ (w h : ℚ) (a : ℤ),
      calculate_bmr w h a "male" = roundTo 2 ((10 * w) + (6.25 * h) - (5 * a) + 5) ∧
      calculate_bmr w h a "female" = roundTo 2 ((10 * w) + (6.25 * h) - (5 * a) - 161) ∧
      calculate_bmr w h a "other" = calculate_bmr w h a "female") ∧
    calculate_bmr 70 175 30 "male" = 1648.75 ∧
    calculate_bmr 70 175 30 "female" = 1482.75 := by
  refine ⟨fun w h a => ⟨?_, ?_, ?_⟩, by decide, by decide⟩
  · unfold calculate_bmr
    rw [if_pos (show str_lower "male" = "male" by decide)]
  · unfold calculate_bmr
    rw [if_neg (show ¬(str_lower "female" = "male") by decide)]
  · unfold calculate_bmr
    rw [if_neg (show ¬(str_lower "other" = "male") by decide),
      if_neg (show ¬(str_lower "female" = "male") by decide)]

/-- C1 counterexample: on the claim's profile the pipeline's bmr is
1648.75, not 1673.75 as the claim states. -/
theorem c1_counterexample :
    ((assess_health profile0).map fun p => p.assessment.bmr) ≠ some 1673.75 := by
  decide

/-- C1 (amended): for the profile {age 30, male, 175 cm, 70 kg, sedentary,
lose_weight, none, no conditions} the pipeline produces bmi 22.86
("Normal weight"), bmr 1648.75, daily_calories 1478.5, protein 129.37 g,
carbs 129.37 g, fats 49.28 g, ideal weight range 56.7 to 76.3 kg, water
2.3 L, and the single no-risk message.  (The claim's bmr 1673.75,
daily_calories 1508.5, macro grams 131.99/131.99/50.28 and ideal-weight
max 83.0 do not match the code's arithmetic.) -/
theorem c1_pipeline_values :
    ((assess_health profile0).map fun p =>
      (p.assessment.bmi, p.assessment.bmi_category, p.assessment.bmr,
       p.assessment.daily_calories)) =
      some (22.86, "Normal weight", 1648.75, 1478.5) ∧
    ((assess_health profile0).map fun p =>
      (p.assessment.protein_grams, p.assessment.carbs_grams,
       p.assessment.fats_grams, p.assessment.water_liters)) =
      some (129.37, 129.37, 49.28, 2.3) ∧
    ((assess_health profile0).map fun p =>
      (p.assessment.ideal_weight_range.min_kg,
       p.assessment.ideal_weight_range.max_kg, p.assessment.health_risks)) =
      some (56.7, 76.3, ["No significant health risks identified"]) :=
  ⟨by decide, by decide, by decide⟩

/-- C4 counterexample: daily_calories = 498 is reachable (weight 30,
height 36, age 23, male, sedentary, maintain), and there the breakfast
share is round-half-even(124.5) = 124, while standard (half-up) rounding
of 25% of 498 gives 125. -/
theorem c4_counterexample :
    calculate_daily_calories (calculate_bmr 30 36 23 "male") "sedentary" "maintain" = 498 ∧
    ((generate_meal_suggestions 498 (calculate_macros 498 "maintain") none).map
      fun m => (m.meal, m.calories)) =
      [("Breakfast", 124), ("Lunch", 174), ("Dinner", 149), ("Snacks", 50)] ∧
    roundHalfUp ((498 : ℚ) * 0.25) = 125 ∧ (124 : ℤ) ≠ 125 := by
  decide

/-- C4 (amended): the four meal entries carry calorie shares equal to 25%,
35%, 30% and 10% of daily_calories for Breakfast/Lunch/Dinner/Snacks,
each rounded to the nearest integer with ties to even (Python `round`),
not standard half-up rounding. -/
theorem c4_meal_calorie_shares (daily_calories : ℚ) (macros : Macros)
    (dietary_preference : Option String) :
    ((generate_meal_suggestions daily_calories macros dietary_preference).map
      fun m => (m.meal, m.calories)) =
    [("Breakfast", roundHalfEven (daily_calories * 0.25)),
     ("Lunch", roundHalfEven (daily_calories * 0.35)),
     ("Dinner", roundHalfEven (daily_calories * 0.30)),
     ("Snacks", roundHalfEven (daily_calories * 0.10))] := by
  unfold generate_meal_suggestions
  split_ifs <;> rfl

/-- C10: for every activity_level string that is not one of the five
recognized keys, `calculate_daily_calories` does not fail but silently
falls back to the sedentary multiplier 1.2, giving the same result as
activity_level "sedentary". -/
theorem c10_unrecognized_activity_fallback (bmr : ℚ) (goal s : String)
    (h : s ∉ ["sedentary", "lightly_active", "moderately_active",
      "very_active", "extra_active"]) :
    calculate_daily_calories bmr s goal =
      calculate_daily_calories bmr "sedentary" goal := by
  have h5 : s ≠ "sedentary" ∧ s ≠ "lightly_active" ∧ s ≠ "moderately_active" ∧
      s ≠ "very_active" ∧ s ≠ "extra_active" := by
    simp only [List.mem_cons, List.not_mem_nil, or_false] at h
    push_neg at h
    exact ⟨h.1, h.2.1, h.2.2.1, h.2.2.2.1, h.2.2.2.2⟩
  have hnone : activity_multipliers.lookup s = none := by
    simp [activity_multipliers, List.lookup, beq_eq_false_iff_ne.mpr h5.1,
      beq_eq_false_iff_ne.mpr h5.2.1, beq_eq_false_iff_ne.mpr h5.2.2.1,
      beq_eq_false_iff_ne.mpr h5.2.2.2.1, beq_eq_false_iff_ne.mpr h5.2.2.2.2]
  unfold calculate_daily_calories
  rw [hnone]
  rfl

/-- Witness for C10 at the unrecognized activity level "yoga". -/
theorem c10_witness :
    "yoga" ∉ ["sedentary", "lightly_active", "moderately_active",
      "very_active", "extra_active"] ∧
    calculate_daily_calories 1000 "yoga" "maintain" =
      calculate_daily_calories 1000 "sedentary" "maintain" :=
  ⟨by decide, c10_unrecognized_activity_fallback 1000 "maintain" "yoga" (by decide)⟩

theorem macro_sum_bound (d p₁ p₂ p₃ : ℚ) (hsum : p₁ + p₂ + p₃ = 1) :
    |4 * roundTo 2 (d * p₁ / 4) + 4 * roundTo 2 (d * p₂ / 4) +
      9 * roundTo 2 (d * p₃ / 9) - d| ≤ 17/200 := by
  have h1 := abs_roundTo2_sub_le (d * p₁ / 4)
  have h2 := abs_roundTo2_sub_le (d * p₂ / 4)
  have h3 := abs_roundTo2_sub_le (d * p₃ / 9)
  have key : 4 * (d * p₁ / 4) + 4 * (d * p₂ / 4) + 9 * (d * p₃ / 9) = d := by
    field_simp
    linear_combination d * hsum
  rw [abs_le] at h1 h2 h3 ⊢
  constructor <;> linarith [h1.1, h1.2, h2.1, h2.2, h3.1, h3.2]

/-- C8: for every goal and daily_calories value, the macro grams of
`calculate_macros` satisfy protein*4 + carbs*4 + fats*9 = daily_calories
up to the error of rounding each gram value to 2 decimals (at most
(4+4+9)/200 = 17/200 kcal); each per-goal percentage triple sums to
100%. -/
theorem c8_macros_calorie_sum (goal : String) (daily_calories : ℚ) :
    |4 * (calculate_macros daily_calories goal).protein +
      4 * (calculate_macros daily_calories goal).carbs +
      9 * (calculate_macros daily_calories goal).fats - daily_calories| ≤ 17/200 := by
  unfold calculate_macros
  split_ifs <;> exact macro_sum_bound _ _ _ _ (by norm_num)

theorem mc_supervision_ne_default (l : List String) :
    "Existing conditions require medical supervision: " ++
      String.intercalate ", " l ≠ "No significant health risks identified" := by
  intro hc
  have hlen := congrArg String.length hc
  rw [String.length_append] at hlen
  have hx : ("Existing conditions require medical supervision: ").length = 49 := by
    decide
  have hy : ("No significant health risks identified").length = 38 := by decide
  omega

theorem risk_items_ne_single (bmi : ℚ) (age : ℤ) (mc : Option (List String)) :
    risk_items bmi age mc ≠ ["No significant health risks identified"] := by
  by_cases h1 : bmi < 18.5 <;> by_cases ha : 25 ≤ bmi <;>
    by_cases hb : bmi < 30 <;> by_cases hd : 30 ≤ bmi <;>
    by_cases hc : 40 < age <;> by_cases h5 : mcPresent mc = true <;>
    simp [risk_items, h1, ha, hb, hd, hc, h5] <;>
    exact mc_supervision_ne_default _

theorem risk_items_eq_nil_iff (bmi : ℚ) (age : ℤ) (mc : Option (List String)) :
    risk_items bmi age mc = [] ↔
      18.5 ≤ bmi ∧ bmi < 25 ∧ mcPresent mc = false := by
  by_cases h1 : bmi < 18.5 <;> by_cases ha : 25 ≤ bmi <;>
    by_cases hb : bmi < 30 <;> by_cases hd : 30 ≤ bmi <;>
    by_cases hc : 40 < age <;> by_cases h5 : mcPresent mc = true <;>
    simp [risk_items, h1, ha, hb, hd, hc, h5] <;>
    first
      | (constructor <;> linarith)
      | (exfalso; linarith)

/-- C7: `assess_health_risks` always returns a non-empty list, and it
returns exactly the singleton no-risk message precisely when no rule
fires (BMI in [18.5, 25) and no medical conditions present); otherwise it
returns the accumulated risk strings. -/
theorem c7_health_risks_nonempty (bmi : ℚ) (age : ℤ)
    (medical_conditions : Option (List String)) :
    assess_health_risks bmi age medical_conditions ≠ [] ∧
    (assess_health_risks bmi age medical_conditions =
        ["No significant health risks identified"] ↔
      18.5 ≤ bmi ∧ bmi < 25 ∧ mcPresent medical_conditions = false) := by
  refine ⟨?_, ?_⟩
  · unfold assess_health_risks
    split_ifs with h
    · simp
    · exact h
  · unfold assess_health_risks
    split_ifs with hnil
    · exact iff_of_true rfl ((risk_items_eq_nil_iff bmi age medical_conditions).mp hnil)
    · exact iff_of_false (risk_items_ne_single bmi age medical_conditions)
        (fun hc => hnil
          ((risk_items_eq_nil_iff bmi age medical_conditions).mpr hc))

/-- C9: for every profile satisfying the validated field constraints, the
assess operation is total: it reaches no error branch and yields a
complete plan with the embedded profile, a 7-entry workout plan, a
4-entry meal plan, the 10 lifestyle tips and 6 weekly goals. -/
theorem c9_assess_total (u : UserHealthInfo) (h : ValidProfile u) :
    ∃ plan, assess_health u = some plan ∧ plan.user_info = u ∧
      plan.workout_plan.length = 7 ∧ plan.meal_suggestions.length = 4 ∧
      plan.lifestyle_tips.length = 10 ∧ plan.weekly_goals.length = 6 := by
  obtain ⟨-, -, -, -, hh, -⟩ := h
  have hm : (u.height / 100) ^ 2 ≠ 0 :=
    pow_ne_zero _ (div_ne_zero (ne_of_gt hh) (by norm_num))
  have hbmi : calculate_bmi u.weight u.height =
      some (roundTo 2 (u.weight / (u.height / 100) ^ 2)) := by
    unfold calculate_bmi
    rw [if_neg hm]
  have hw : ∀ cat, (generate_workout_plan u cat).length = 7 := by
    intro cat
    unfold generate_workout_plan
    split_ifs <;> rfl
  have hms : ∀ (d : ℚ) (m : Macros) (p : Option String),
      (generate_meal_suggestions d m p).length = 4 := by
    intro d m p
    unfold generate_meal_suggestions
    split_ifs <;> rfl
  have hwg : ∀ d : ℚ, (generate_weekly_goals u d).length = 6 := by
    intro d
    unfold generate_weekly_goals
    split_ifs <;> rfl
  unfold assess_health
  rw [hbmi]
  dsimp only
  refine ⟨_, rfl, rfl, ?_, ?_, rfl, ?_⟩
  · dsimp only
    exact hw _
  · dsimp only
    exact hms _ _ _
  · dsimp only
    exact hwg _

/-- Witness for C9 at a concrete valid profile. -/
theorem c9_witness :
    ValidProfile (UserHealthInfo.mk "Ada" 40 "female" 160 60 "lightly_active"
      "maintain" none (some ["asthma"])) ∧
    ∃ plan,
      assess_health (UserHealthInfo.mk "Ada" 40 "female" 160 60 "lightly_active"
        "maintain" none (some ["asthma"])) = some plan ∧
      plan.user_info = UserHealthInfo.mk "Ada" 40 "female" 160 60 "lightly_active"
        "maintain" none (some ["asthma"]) ∧
      plan.workout_plan.length = 7 ∧ plan.meal_suggestions.length = 4 ∧
      plan.lifestyle_tips.length = 10 ∧ plan.weekly_goals.length = 6 :=
  ⟨by decide, c9_assess_total _ (by decide)⟩

end HealthApp
